import Mathlib

/-!
# ply: probe built-ins (src/module/probe.c)

A shallow embedding of the kprobe/kretprobe provider built-ins of ply
(`reg`, `func`/`probefunc`, `stack`, `arg`, `retval`) and of the two module
tables, followed by theorems about them.

Conventions of the embedding

* C `int`, `intptr_t`, `int64_t`, `ssize_t` values are `Int`; `size_t` values
  are `Nat`.  The only place where a machine width is applied is the 32-bit
  immediate field of an emitted instruction (`s32`).
* A call node is its own fields (`node_t`) together with the list of its
  argument nodes: the C list `call->call.vargs` linked through `next`.  A NULL
  `vargs` is the empty list, `!arg || arg->next` is "the list does not have
  exactly one element".
* Every callback returns its C return value together with the state it leaves
  behind.  A callback that dereferences `call->call.vargs` without a check
  returns `none` on a call without arguments.
* Services that probe.c consumes but does not define (architecture tables,
  the scratch-stack allocator, the higher-level emitters) are parameters.
-/

namespace Ply

/-! ## errno values used by probe.c -/

/-- Value of EINVAL from errno.h. -/
def EINVAL : Int := 22

/-- Value of ENOSYS from errno.h. -/
def ENOSYS : Int := 38

/-! ## Data model -/

/-- Node and value type tags (ast.h).  probe.c names TYPE_INT, TYPE_STR and
TYPE_STACK; the remaining tags stand for the other kinds of node an argument
can be. -/
inductive type_t where
  | TYPE_NONE
  | TYPE_CALL
  | TYPE_BINOP
  | TYPE_MAP
  | TYPE_INT
  | TYPE_STR
  | TYPE_STACK
  deriving DecidableEq, Repr

/-- Storage classes of a dyn (ast.h). -/
inductive loc_t where
  | LOC_NOWHERE
  | LOC_VIRTUAL
  | LOC_REG
  | LOC_STACK
  deriving DecidableEq, Repr

/-- Dump callbacks a node can be tagged with; probe.c installs dump_sym. -/
inductive dumper_t where
  | dump_sym
  deriving DecidableEq, Repr

/-- The location record of a node: result type, byte width, storage class,
register number and frame offset. -/
structure dyn_t where
  type : type_t
  size : Nat
  loc : loc_t
  reg : Int
  addr : Int
  deriving DecidableEq, Repr

/-- The fields of one node that probe.c reads or writes.  The parent link is
the address of the parent node; dump is the node's dump callback when set. -/
structure node_t where
  type : type_t
  string : String
  integer : Int
  parent : Option Nat
  dyn : dyn_t
  dump : Option dumper_t
  deriving DecidableEq, Repr

/-- A call node: its address, its own fields, and its argument list
(call.vargs, linked through next). -/
structure call_node where
  self : Nat
  node : node_t
  vargs : List node_t
  deriving DecidableEq, Repr

/-- The state of the enclosing probe that the scratch-stack allocator mutates:
the number of scratch bytes handed out so far. -/
structure probe_t where
  used : Nat
  deriving DecidableEq, Repr

/-- Architecture services consumed from arch.h.  arch_reg_arg is applied to
the literal of the argument node; sizeof_uintptr is sizeof(uintptr_t) of the
build. -/
structure arch_t where
  arch_reg_width : Int
  sizeof_uintptr : Int
  arch_reg_atoi : String → Int
  arch_reg_func : Int
  arch_reg_retval : Int
  arch_reg_arg : Int → Int

/-- A zeroed location record. -/
def dyn_zero : dyn_t :=
  { type := type_t.TYPE_NONE, size := 0, loc := loc_t.LOC_NOWHERE, reg := 0, addr := 0 }

/-- Modelled from the spec: node_int_new (ast.c is not under src/) creates a
fresh integer-literal node holding the given value, with no parent, no
successor and a zeroed location record. -/
def node_int_new (val : Int) : node_t :=
  { type := type_t.TYPE_INT
    string := ""
    integer := val
    parent := none
    dyn := dyn_zero
    dump := none }

/-- Value of sizeof(int64_t). -/
def sizeof_int64 : Nat := 8

/-- The two stores every successful register-reading annotate ends with:
call.dyn.type = TYPE_INT and call.dyn.size = sizeof(int64_t). -/
def set_int_result (n : node_t) : node_t :=
  { n with dyn := { n.dyn with type := type_t.TYPE_INT, size := sizeof_int64 } }

/-! ## Annotate callbacks -/

/-- The annotate callback of reg (probe.c lines 75-98). -/
def probe_reg_annotate (A : arch_t) (call : call_node) : Int × call_node :=
  match call.vargs with
  | [arg] =>
    if arg.type = type_t.TYPE_STR then
      let reg := A.arch_reg_atoi arg.string
      if reg < 0 then (reg, call)
      else
        (0, { call with
                vargs := [{ arg with integer := reg }]
                node := set_int_result call.node })
    else if arg.type ≠ type_t.TYPE_INT then (-ENOSYS, call)
    else (0, { call with node := set_int_result call.node })
  | _ => (-EINVAL, call)

/-- The annotate callback of func and probefunc (probe.c lines 112-131). -/
def probe_func_annotate (A : arch_t) (call : call_node) : Int × call_node :=
  match call.vargs with
  | _ :: _ => (-EINVAL, call)
  | [] =>
    let reg := A.arch_reg_func
    if reg < 0 then (reg, call)
    else
      (0, { call with
              vargs := [{ node_int_new reg with parent := some call.self }]
              node := { set_int_result call.node with dump := some dumper_t.dump_sym } })

/-- The annotate callback of stack (probe.c lines 162-170). -/
def probe_stack_annotate (call : call_node) : Int × call_node :=
  match call.vargs with
  | _ :: _ => (-EINVAL, call)
  | [] =>
    (0, { call with
            node := { call.node with
                        dyn := { call.node.dyn with type := type_t.TYPE_STACK, size := 8 } } })

/-- The annotate callback of arg (probe.c lines 184-206). -/
def kprobe_arg_annotate (A : arch_t) (call : call_node) : Int × call_node :=
  match call.vargs with
  | [arg] =>
    if arg.type ≠ type_t.TYPE_INT then (-ENOSYS, call)
    else
      let reg := A.arch_reg_arg arg.integer
      if reg < 0 then (reg, call)
      else
        (0, { call with
                vargs := [{ arg with integer := reg }]
                node := set_int_result call.node })
  | _ => (-EINVAL, call)

/-- The annotate callback of retval (probe.c lines 220-238). -/
def kretprobe_retval_annotate (A : arch_t) (call : call_node) : Int × call_node :=
  match call.vargs with
  | _ :: _ => (-EINVAL, call)
  | [] =>
    let reg := A.arch_reg_retval
    if reg < 0 then (reg, call)
    else
      (0, { call with
              vargs := [{ node_int_new reg with parent := some call.self }]
              node := { set_int_result call.node with dump := some dumper_t.dump_sym } })

/-! ## Location assignment -/

/-- The location-assignment callback of reg (probe.c lines 59-73).  The
enclosing probe (node_get_probe) is passed explicitly and the allocator
node_probe_stack_get, declared outside probe.c, is a parameter returning the
updated probe together with the offset it hands out. -/
def probe_reg_loc_assign (node_probe_stack_get : probe_t → Nat → probe_t × Int)
    (probe : probe_t) (call : call_node) : Option (Int × call_node × probe_t) :=
  let st : call_node × probe_t :=
    if call.node.dyn.loc = loc_t.LOC_REG then
      let r := node_probe_stack_get probe call.node.dyn.size
      ({ call with node := { call.node with dyn := { call.node.dyn with addr := r.2 } } }, r.1)
    else (call, probe)
  match st.1.vargs with
  | [] => none
  | arg :: rest =>
    some (0,
      { st.1 with vargs := { arg with dyn := { arg.dyn with loc := loc_t.LOC_VIRTUAL } } :: rest },
      st.2)

/-- The location-assignment callback of func (probe.c lines 107-110). -/
def probe_func_loc_assign (node_probe_stack_get : probe_t → Nat → probe_t × Int)
    (probe : probe_t) (call : call_node) : Option (Int × call_node × probe_t) :=
  probe_reg_loc_assign node_probe_stack_get probe call

/-- The location-assignment callback of arg (probe.c lines 179-182). -/
def kprobe_arg_loc_assign (node_probe_stack_get : probe_t → Nat → probe_t × Int)
    (probe : probe_t) (call : call_node) : Option (Int × call_node × probe_t) :=
  probe_reg_loc_assign node_probe_stack_get probe call

/-- The location-assignment callback of retval (probe.c lines 215-218). -/
def kretprobe_retval_loc_assign (node_probe_stack_get : probe_t → Nat → probe_t × Int)
    (probe : probe_t) (call : call_node) : Option (Int × call_node × probe_t) :=
  probe_reg_loc_assign node_probe_stack_get probe call

/-! ## Instruction emission -/

/-- Conversion of a C integer to the signed 32-bit immediate field of an
instruction. -/
def s32 (x : Int) : Int := (x + 2147483648) % 4294967296 - 2147483648

/-- Arithmetic operation selectors of the instruction set. -/
inductive alu_op where
  | BPF_ADD
  | BPF_SUB
  deriving DecidableEq, Repr

/-- Helper functions called by probe.c. -/
inductive bpf_func_id where
  | BPF_FUNC_probe_read
  | BPF_FUNC_get_stackid
  deriving DecidableEq, Repr

/-- The instruction forms probe.c emits, one constructor per emitter form of
bpf-syscall.h; imm is the signed 32-bit immediate field. -/
inductive bpf_insn where
  | mov (dst src : Nat)
  | mov_imm (dst : Nat) (imm : Int)
  | alu_imm (op : alu_op) (dst : Nat) (imm : Int)
  | call (func : bpf_func_id)
  | ld_mapfd (dst : Nat) (fd : Int)
  deriving DecidableEq, Repr

/-- Register r0, the return value of a helper. -/
def BPF_REG_0 : Nat := 0
/-- Register r1, first helper argument. -/
def BPF_REG_1 : Nat := 1
/-- Register r2, second helper argument. -/
def BPF_REG_2 : Nat := 2
/-- Register r3, third helper argument. -/
def BPF_REG_3 : Nat := 3
/-- Register r9, where ply keeps the probe context (register-save area). -/
def BPF_REG_9 : Nat := 9
/-- Register r10, the read-only frame pointer. -/
def BPF_REG_10 : Nat := 10

/-- The form MOV(dst, src): register to register move. -/
def MOV (dst src : Nat) : bpf_insn := bpf_insn.mov dst src

/-- The form MOV_IMM(dst, imm): the C argument is stored in the 32-bit field. -/
def MOV_IMM (dst : Nat) (imm : Int) : bpf_insn := bpf_insn.mov_imm dst (s32 imm)

/-- The form ALU_IMM(op, dst, imm): the C argument is stored in the 32-bit
field. -/
def ALU_IMM (op : alu_op) (dst : Nat) (imm : Int) : bpf_insn := bpf_insn.alu_imm op dst (s32 imm)

/-- The form CALL(helper). -/
def CALL (func : bpf_func_id) : bpf_insn := bpf_insn.call func

/-- The filled part of a program buffer, oldest instruction first. -/
abbrev prog_t := List bpf_insn

/-- Modelled from the spec: emit (compile.c is not under src/) appends one
instruction to the growing program buffer. -/
def emit (prog : prog_t) (insn : bpf_insn) : prog_t := prog ++ [insn]

/-- Higher-level emitters consumed from compile.c.  Each is given by the
instructions it appends to the buffer; emit_xfer_dyns also yields its return
value. -/
structure emitter_t where
  emit_stack_zero : call_node → List bpf_insn
  emit_xfer_dyns : dyn_t → dyn_t → List bpf_insn × Int

/-- The compile callback of reg (probe.c lines 35-57). -/
def probe_reg_compile (A : arch_t) (E : emitter_t) (call : call_node) (prog : prog_t) :
    Option (Int × prog_t) :=
  match call.vargs with
  | [] => none
  | arg :: _ =>
    let p0 := prog ++ E.emit_stack_zero call
    let p1 := emit p0 (MOV BPF_REG_1 BPF_REG_10)
    let p2 := emit p1 (ALU_IMM alu_op.BPF_ADD BPF_REG_1 call.node.dyn.addr)
    let p3 := emit p2 (MOV_IMM BPF_REG_2 A.arch_reg_width)
    let p4 := emit p3 (MOV BPF_REG_3 BPF_REG_9)
    let p5 := emit p4 (ALU_IMM alu_op.BPF_ADD BPF_REG_3 (A.sizeof_uintptr * arg.integer))
    let p6 := emit p5 (CALL bpf_func_id.BPF_FUNC_probe_read)
    if call.node.dyn.loc = loc_t.LOC_REG then
      let src : dyn_t := { call.node.dyn with loc := loc_t.LOC_STACK }
      let r := E.emit_xfer_dyns call.node.dyn src
      some (r.2, p6 ++ r.1)
    else some (0, p6)

/-- The compile callback of func (probe.c lines 102-105). -/
def probe_func_compile (A : arch_t) (E : emitter_t) (call : call_node) (prog : prog_t) :
    Option (Int × prog_t) :=
  probe_reg_compile A E call prog

/-- The compile callback of arg (probe.c lines 174-177). -/
def kprobe_arg_compile (A : arch_t) (E : emitter_t) (call : call_node) (prog : prog_t) :
    Option (Int × prog_t) :=
  probe_reg_compile A E call prog

/-- The compile callback of retval (probe.c lines 210-213). -/
def kretprobe_retval_compile (A : arch_t) (E : emitter_t) (call : call_node) (prog : prog_t) :
    Option (Int × prog_t) :=
  probe_reg_compile A E call prog

/-! ## Function descriptors and module tables -/

/-- The annotate callbacks a descriptor can point to. -/
inductive annotate_fn where
  | probe_reg_annotate
  | probe_func_annotate
  | probe_stack_annotate
  | kprobe_arg_annotate
  | kretprobe_retval_annotate
  deriving DecidableEq, Repr

/-- The location-assignment callbacks a descriptor can point to. -/
inductive loc_assign_fn where
  | probe_reg_loc_assign
  | probe_func_loc_assign
  | probe_stack_loc_assign
  | kprobe_arg_loc_assign
  | kretprobe_retval_loc_assign
  deriving DecidableEq, Repr

/-- The compile callbacks a descriptor can point to. -/
inductive compile_fn where
  | probe_reg_compile
  | probe_func_compile
  | probe_stack_compile
  | kprobe_arg_compile
  | kretprobe_retval_compile
  deriving DecidableEq, Repr

/-- A built-in function descriptor: a name and its three callbacks. -/
structure func_t where
  name : String
  annotate : annotate_fn
  loc_assign : loc_assign_fn
  compile : compile_fn
  deriving DecidableEq, Repr

/-- Modelled from the spec: MODULE_FUNC_LOC(mod, name) (module.h is not under
src/) defines the descriptor mod_name_func, named name, whose callbacks are
mod_name_annotate, mod_name_loc_assign and mod_name_compile. -/
def MODULE_FUNC_LOC (name : String) (a : annotate_fn) (l : loc_assign_fn) (c : compile_fn) :
    func_t :=
  { name := name, annotate := a, loc_assign := l, compile := c }

/-- Modelled from the spec: MODULE_FUNC_ALIAS(mod, name, real) (module.h is
not under src/) defines the descriptor mod_name_func, named name, that
resolves to the same callbacks as the descriptor of real. -/
def MODULE_FUNC_ALIAS (name : String) (real : func_t) : func_t :=
  { real with name := name }

/-- Descriptor of reg (probe.c line 99). -/
def probe_reg_func : func_t :=
  MODULE_FUNC_LOC "reg" annotate_fn.probe_reg_annotate loc_assign_fn.probe_reg_loc_assign
    compile_fn.probe_reg_compile

/-- Descriptor of func (probe.c line 132). -/
def probe_func_func : func_t :=
  MODULE_FUNC_LOC "func" annotate_fn.probe_func_annotate loc_assign_fn.probe_func_loc_assign
    compile_fn.probe_func_compile

/-- Descriptor of probefunc (probe.c line 133). -/
def probe_probefunc_func : func_t :=
  MODULE_FUNC_ALIAS "probefunc" probe_func_func

/-- Descriptor of stack (probe.c line 171), only defined with
LINUX_HAS_STACKMAP. -/
def probe_stack_func : func_t :=
  MODULE_FUNC_LOC "stack" annotate_fn.probe_stack_annotate loc_assign_fn.probe_stack_loc_assign
    compile_fn.probe_stack_compile

/-- Descriptor of arg (probe.c line 207). -/
def kprobe_arg_func : func_t :=
  MODULE_FUNC_LOC "arg" annotate_fn.kprobe_arg_annotate loc_assign_fn.kprobe_arg_loc_assign
    compile_fn.kprobe_arg_compile

/-- Descriptor of retval (probe.c line 239). -/
def kretprobe_retval_func : func_t :=
  MODULE_FUNC_LOC "retval" annotate_fn.kretprobe_retval_annotate
    loc_assign_fn.kretprobe_retval_loc_assign compile_fn.kretprobe_retval_compile

/-- The table kprobe_funcs (probe.c lines 242-253); the flag says whether the
build defines LINUX_HAS_STACKMAP. -/
def kprobe_funcs (LINUX_HAS_STACKMAP : Bool) : List func_t :=
  [probe_reg_func, probe_func_func, probe_probefunc_func]
    ++ (if LINUX_HAS_STACKMAP then [probe_stack_func] else [])
    ++ [kprobe_arg_func]

/-- The table kretprobe_funcs (probe.c lines 265-274). -/
def kretprobe_funcs (LINUX_HAS_STACKMAP : Bool) : List func_t :=
  [probe_reg_func]
    ++ (if LINUX_HAS_STACKMAP then [probe_stack_func] else [])
    ++ [kretprobe_retval_func]

/-- Modelled from the spec: generic_get_func (module.c is not under src/)
searches the ordered descriptor table by exact match of the call name, first
match wins; none is the lookup error NotFound. -/
def generic_get_func (fs : List func_t) (call : call_node) : Option func_t :=
  fs.find? (fun f => f.name == call.node.string)

/-- The resolver kprobe_get_func (probe.c lines 255-258). -/
def kprobe_get_func (LINUX_HAS_STACKMAP : Bool) (call : call_node) : Option func_t :=
  generic_get_func (kprobe_funcs LINUX_HAS_STACKMAP) call

/-- The resolver kretprobe_get_func (probe.c lines 276-279). -/
def kretprobe_get_func (LINUX_HAS_STACKMAP : Bool) (call : call_node) : Option func_t :=
  generic_get_func (kretprobe_funcs LINUX_HAS_STACKMAP) call

/-- Calling the annotate callback a descriptor points to. -/
def func_annotate (f : func_t) (A : arch_t) (call : call_node) : Int × call_node :=
  match f.annotate with
  | annotate_fn.probe_reg_annotate => probe_reg_annotate A call
  | annotate_fn.probe_func_annotate => probe_func_annotate A call
  | annotate_fn.probe_stack_annotate => probe_stack_annotate call
  | annotate_fn.kprobe_arg_annotate => kprobe_arg_annotate A call
  | annotate_fn.kretprobe_retval_annotate => kretprobe_retval_annotate A call

/-- The fixed stack size of the virtual machine, in bytes. -/
def STACK_BUDGET : Nat := 512

/-- Value of ENOSPC from errno.h. -/
def ENOSPC : Int := 28

/-- Modelled from the spec: the scratch-stack allocator node_probe_stack_get
(ast.h is not under src/) is a bump allocator bounded by the fixed stack
size: a request that fits advances the cursor and returns the frame offset of
the fresh region, a request that does not fit leaves the cursor alone and
reports resource exhaustion (as a negative errno). -/
def bounded_stack_get (probe : probe_t) (size : Nat) : probe_t × Int :=
  if probe.used + size ≤ STACK_BUDGET then
    ({ used := probe.used + size }, -((probe.used + size : Nat) : Int))
  else (probe, -ENOSPC)

/-- An example emitter service: zeroing stores zero through r0, a transfer
moves between the registers of the two records and succeeds. -/
def emitter_example : emitter_t :=
  { emit_stack_zero := fun _ => [bpf_insn.mov_imm BPF_REG_0 0]
    emit_xfer_dyns := fun dst src => ([bpf_insn.mov dst.reg.toNat src.reg.toNat], 0) }

/-! ## Stack capture (built with LINUX_HAS_STACKMAP) -/

/-- A kernel map object as far as probe.c reads it: its handle. -/
structure map_t where
  fd : Int
  deriving DecidableEq, Repr

/-- A symbol of the script symbol table as far as probe.c reads it: its map. -/
structure sym_t where
  map : map_t
  deriving DecidableEq, Repr

/-- The part of the script symbol table (script.dyn.script.st) that the stack
built-in touches: the stack-trace map symbol, when there is one, and the
number of references taken on the shared stack-trace map. -/
structure symtable_t where
  stack : Option sym_t
  stack_refs : Nat
  deriving DecidableEq, Repr

/-- Services that the stack built-in consumes and probe.c does not define:
symtable_get_stack and symtable_ref_stack (symtable.h), default_loc_assign,
emit_ld_mapfd (given by the instructions it appends) and the table dyn_reg of
the location records of the registers. -/
structure stack_env_t where
  symtable_get_stack : symtable_t → Option sym_t
  symtable_ref_stack : symtable_t → Int × symtable_t
  default_loc_assign : probe_t → call_node → Int × call_node × probe_t
  emit_ld_mapfd : Nat → Int → List bpf_insn
  dyn_reg : Nat → dyn_t

/-- The compile callback of stack (probe.c lines 136-148).  The symbol table
of the enclosing script (node_get_script) is passed explicitly; a failing
assert(s) gives none. -/
def probe_stack_compile (S : stack_env_t) (E : emitter_t) (st : symtable_t)
    (call : call_node) (prog : prog_t) : Option (Int × prog_t) :=
  match S.symtable_get_stack st with
  | none => none
  | some s =>
    let p1 := emit prog (MOV BPF_REG_1 BPF_REG_9)
    let p2 := p1 ++ S.emit_ld_mapfd BPF_REG_2 s.map.fd
    let p3 := emit p2 (MOV_IMM BPF_REG_3 0)
    let p4 := emit p3 (CALL bpf_func_id.BPF_FUNC_get_stackid)
    let r := E.emit_xfer_dyns call.node.dyn (S.dyn_reg BPF_REG_0)
    some (r.2, p4 ++ r.1)

/-- The location-assignment callback of stack (probe.c lines 150-160).  The
result is the C return value, the call, the enclosing probe and the symbol
table of the enclosing script as the callback leaves them. -/
def probe_stack_loc_assign (S : stack_env_t) (st : symtable_t) (probe : probe_t)
    (call : call_node) : Int × call_node × probe_t × symtable_t :=
  let r := S.symtable_ref_stack st
  if r.1 ≠ 0 then (r.1, call, probe, r.2)
  else
    let d := S.default_loc_assign probe call
    (d.1, d.2.1, d.2.2, r.2)

/-- Modelled from the spec: arch_reg_width (arch.h is not under src/) is the
native pointer width of the architecture in bytes, which for the build is
sizeof(uintptr_t). -/
def arch_reg_width_native (A : arch_t) : Prop := A.arch_reg_width = A.sizeof_uintptr

/-- Modelled from the spec: symtable_ref_stack (symtable.h is not under src/)
acquires the shared stack-trace map of the script and, when it succeeds,
has incremented the reference count on it by one. -/
def ref_stack_counts (S : stack_env_t) : Prop :=
  ∀ t : symtable_t,
    (S.symtable_ref_stack t).1 = 0 → (S.symtable_ref_stack t).2.stack_refs = t.stack_refs + 1

/-- What the later phases need of a register-reading call: exactly one
argument (call.vargs present, without successor) and an integer result of
size 8. -/
def reg_call_ready (c : call_node) : Prop :=
  ∃ arg : node_t, c.vargs = [arg] ∧ c.node.dyn.type = type_t.TYPE_INT ∧ c.node.dyn.size = 8

/-! ## Example inputs -/

/-- An example 64-bit architecture service: register indices follow the
x86_64 pt_regs layout. -/
def arch_example64 : arch_t :=
  { arch_reg_width := 8
    sizeof_uintptr := 8
    arch_reg_atoi := fun s =>
      if s = "rax" then 10 else if s = "rdi" then 14 else if s = "rip" then 16 else -ENOSYS
    arch_reg_func := 16
    arch_reg_retval := 10
    arch_reg_arg := fun n =>
      if n = 0 then 14 else if n = 1 then 13 else if n = 2 then 12 else -ENOSYS }

/-- An example 32-bit architecture service: sixteen core registers, pointer
width four. -/
def arch_example32 : arch_t :=
  { arch_reg_width := 4
    sizeof_uintptr := 4
    arch_reg_atoi := fun s =>
      if s = "r0" then 0 else if s = "sp" then 13 else if s = "pc" then 15 else -ENOSYS
    arch_reg_func := 15
    arch_reg_retval := 0
    arch_reg_arg := fun n =>
      if n = 0 then 0 else if n = 1 then 1 else if n = 2 then 2 else if n = 3 then 3
      else -ENOSYS }

/-- A string-literal argument node as the parser leaves it. -/
def str_arg (s : String) (parent : Nat) : node_t :=
  { type := type_t.TYPE_STR, string := s, integer := 0, parent := some parent,
    dyn := dyn_zero, dump := none }

/-- An integer-literal argument node as the parser leaves it. -/
def int_arg (v : Int) (parent : Nat) : node_t :=
  { type := type_t.TYPE_INT, string := "", integer := v, parent := some parent,
    dyn := dyn_zero, dump := none }

/-- A call node named name at address 100 with the given arguments. -/
def mk_call (name : String) (vargs : List node_t) : call_node :=
  { self := 100
    node := { type := type_t.TYPE_CALL, string := name, integer := 0, parent := some 1,
              dyn := dyn_zero, dump := none }
    vargs := vargs }

/-- The call reg(3) on the example 32-bit architecture. -/
def call_reg_3 : call_node := mk_call "reg" [int_arg 3 100]

/-- The call reg("rax"). -/
def call_reg_rax : call_node := mk_call "reg" [str_arg "rax" 100]

/-- An annotated reg(10) whose result is to be consumed in register 6. -/
def call_reg_in_register : call_node :=
  { self := 100
    node := { type := type_t.TYPE_CALL, string := "reg", integer := 0, parent := some 1,
              dyn := { type := type_t.TYPE_INT, size := 8, loc := loc_t.LOC_REG, reg := 6,
                       addr := 0 }
              dump := none }
    vargs := [int_arg 10 100] }

/-- An annotated reg(10) whose result already lives on the stack at offset
-16. -/
def call_reg_on_stack : call_node :=
  { self := 100
    node := { type := type_t.TYPE_CALL, string := "reg", integer := 0, parent := some 1,
              dyn := { type := type_t.TYPE_INT, size := 8, loc := loc_t.LOC_STACK, reg := 0,
                       addr := -16 }
              dump := none }
    vargs := [int_arg 10 100] }

/-- The call arg(1) as the parser leaves it. -/
def call_arg_1 : call_node := mk_call "arg" [int_arg 1 100]

/-- The call arg(7) as the parser leaves it; the example architectures have
no seventh argument register. -/
def call_arg_7 : call_node := mk_call "arg" [int_arg 7 100]

/-- An example architecture service without a return-value register. -/
def arch_no_retval : arch_t := { arch_example64 with arch_reg_retval := -ENOSYS }

/-- The call retval() as the parser leaves it. -/
def call_retval : call_node := mk_call "retval" []

/-- An example stack service: the symbol table answers with its stack symbol,
taking a reference succeeds and counts when the symbol exists and fails with
-ENOSYS otherwise, default placement puts the result in register 0, the map
handle is loaded by one instruction, and register r has the location record
of an 8-byte integer in that register. -/
def stack_env_example : stack_env_t :=
  { symtable_get_stack := fun st => st.stack
    symtable_ref_stack := fun st =>
      match st.stack with
      | some _ => (0, { st with stack_refs := st.stack_refs + 1 })
      | none => (-ENOSYS, st)
    default_loc_assign := fun probe call =>
      (0, { call with node := { call.node with
                                  dyn := { call.node.dyn with loc := loc_t.LOC_REG, reg := 0 } } },
        probe)
    emit_ld_mapfd := fun dst fd => [bpf_insn.ld_mapfd dst fd]
    dyn_reg := fun r =>
      { type := type_t.TYPE_INT, size := 8, loc := loc_t.LOC_REG, reg := r, addr := 0 } }

/-- The example stack service with a default placement that always fails. -/
def stack_env_failing_default : stack_env_t :=
  { stack_env_example with default_loc_assign := fun probe call => (-ENOSPC, call, probe) }

/-- A symbol table holding a stack-trace map with handle 5 and two references. -/
def symtable_with_stack : symtable_t :=
  { stack := some { map := { fd := 5 } }, stack_refs := 2 }

/-- A symbol table without a stack-trace map. -/
def symtable_without_stack : symtable_t := { stack := none, stack_refs := 0 }

/-- The call stack() as the parser leaves it. -/
def call_stack : call_node := mk_call "stack" []

/-- An annotated stack() whose result is placed in register 7. -/
def call_stack_in_register : call_node :=
  { self := 100
    node := { type := type_t.TYPE_CALL, string := "stack", integer := 0, parent := some 1,
              dyn := { type := type_t.TYPE_STACK, size := 8, loc := loc_t.LOC_REG, reg := 7,
                       addr := 0 }
              dump := none }
    vargs := [] }

/-- The call reg(f(..)): its single argument is a nested call. -/
def call_reg_nested : call_node :=
  mk_call "reg"
    [{ type := type_t.TYPE_CALL, string := "f", integer := 0, parent := some 100,
       dyn := dyn_zero, dump := none }]

/-- The call arg("x"): its single argument is a string literal. -/
def call_arg_str : call_node := mk_call "arg" [str_arg "x" 100]

/-- The call reg(1, 2). -/
def call_reg_two : call_node := mk_call "reg" [int_arg 1 100, int_arg 2 100]

/-- The call func(1). -/
def call_func_one : call_node := mk_call "func" [int_arg 1 100]

/-- The call reg("nosuch"), naming a register the example tables do not
know. -/
def call_reg_unknown : call_node := mk_call "reg" [str_arg "nosuch" 100]

/-- The call reg(-5). -/
def call_reg_negative : call_node := mk_call "reg" [int_arg (-5) 100]

/-- An example architecture service whose tables answer -EINVAL for a
register name or an argument index they do not know. -/
def arch_einval_tables : arch_t :=
  { arch_example64 with
    arch_reg_atoi := fun s => if s = "rax" then 10 else -EINVAL
    arch_reg_arg := fun n => if n = 0 then 14 else -EINVAL }

/-! ## Theorems -/

/-- C1 (counterexample): on an architecture whose pointer width is four bytes,
annotating reg(3) succeeds with result type integer, but the result size is 8,
not arch_reg_width(). -/
theorem probe_reg_annotate_size_not_reg_width :
    (probe_reg_annotate arch_example32 call_reg_3).1 = 0 ∧
    (probe_reg_annotate arch_example32 call_reg_3).2.node.dyn.type = type_t.TYPE_INT ∧
    ((probe_reg_annotate arch_example32 call_reg_3).2.node.dyn.size : Int)
      ≠ arch_example32.arch_reg_width := by
  simp [probe_reg_annotate, call_reg_3, mk_call, int_arg, set_int_result, sizeof_int64,
    arch_example32]

/-- C1 (amended): for every call with exactly one argument that is an integer
literal, or a string literal that arch_reg_atoi resolves to a non-negative
index, probe_reg_annotate returns 0, sets the result type to integer and sets
the result size to sizeof(int64_t) = 8 bytes, whatever arch_reg_width() is. -/
theorem probe_reg_annotate_ok (A : arch_t) (call : call_node) (arg : node_t)
    (hargs : call.vargs = [arg])
    (hlit : arg.type = type_t.TYPE_INT ∨
      (arg.type = type_t.TYPE_STR ∧ 0 ≤ A.arch_reg_atoi arg.string)) :
    (probe_reg_annotate A call).1 = 0 ∧
    (probe_reg_annotate A call).2.node.dyn.type = type_t.TYPE_INT ∧
    (probe_reg_annotate A call).2.node.dyn.size = 8 := by
  unfold probe_reg_annotate
  rw [hargs]
  rcases hlit with hi | ⟨hs, hr⟩
  · simp [hi, set_int_result, sizeof_int64]
  · have hnot : ¬ A.arch_reg_atoi arg.string < 0 := not_lt.mpr hr
    simp [hs, hnot, set_int_result, sizeof_int64]

/-- Witness of probe_reg_annotate_ok: reg("rax") on the example 64-bit
architecture. -/
theorem probe_reg_annotate_ok_witness :
    (probe_reg_annotate arch_example64 call_reg_rax).1 = 0 ∧
    (probe_reg_annotate arch_example64 call_reg_rax).2.node.dyn.type = type_t.TYPE_INT ∧
    (probe_reg_annotate arch_example64 call_reg_rax).2.node.dyn.size = 8 :=
  probe_reg_annotate_ok arch_example64 call_reg_rax (str_arg "rax" 100) rfl
    (Or.inr ⟨rfl, by simp [arch_example64, str_arg]⟩)

/-- C2: in the return-probe module the name arg is not found while retval
resolves to the descriptor whose annotate callback is
kretprobe_retval_annotate; in the entry-probe module arg resolves (to the
descriptor of kprobe_arg_annotate) and retval is not found.  This holds with
and without stack-map support. -/
theorem kretprobe_arg_not_found_retval_found (hs : Bool) (c_arg c_retval : call_node)
    (ha : c_arg.node.string = "arg") (hr : c_retval.node.string = "retval") :
    kretprobe_get_func hs c_arg = none ∧
    kretprobe_get_func hs c_retval = some kretprobe_retval_func ∧
    kretprobe_retval_func.annotate = annotate_fn.kretprobe_retval_annotate ∧
    kprobe_get_func hs c_arg = some kprobe_arg_func ∧
    kprobe_arg_func.annotate = annotate_fn.kprobe_arg_annotate ∧
    kprobe_get_func hs c_retval = none := by
  cases hs <;>
    simp [kretprobe_get_func, kprobe_get_func, generic_get_func, kretprobe_funcs, kprobe_funcs,
      ha, hr, List.find?, probe_reg_func, probe_func_func, probe_probefunc_func,
      probe_stack_func, kprobe_arg_func, kretprobe_retval_func, MODULE_FUNC_LOC,
      MODULE_FUNC_ALIAS]

/-- Witness of kretprobe_arg_not_found_retval_found: the calls arg(0) and
retval() in a build with stack-map support. -/
theorem kretprobe_arg_not_found_retval_found_witness :
    kretprobe_get_func true (mk_call "arg" [int_arg 0 100]) = none ∧
    kretprobe_get_func true (mk_call "retval" []) = some kretprobe_retval_func ∧
    kretprobe_retval_func.annotate = annotate_fn.kretprobe_retval_annotate ∧
    kprobe_get_func true (mk_call "arg" [int_arg 0 100]) = some kprobe_arg_func ∧
    kprobe_arg_func.annotate = annotate_fn.kprobe_arg_annotate ∧
    kprobe_get_func true (mk_call "retval" []) = none :=
  kretprobe_arg_not_found_retval_found true (mk_call "arg" [int_arg 0 100])
    (mk_call "retval" []) rfl rfl

/-- C3: in the entry-probe module func and probefunc resolve to descriptors
with the same annotate, assign-location and compile callbacks, and when
arch_reg_func() = r with r at least 0, annotating a call without arguments
through the resolved descriptor returns 0 and leaves exactly one argument: an
integer literal equal to r whose parent is the call; the result type is
integer and the node is tagged dump_sym. -/
theorem func_probefunc_alias_annotate (hs : Bool) (A : arch_t) (call : call_node) (r : Int)
    (hname : call.node.string = "func" ∨ call.node.string = "probefunc")
    (hargs : call.vargs = []) (hr : A.arch_reg_func = r) (hr0 : 0 ≤ r) :
    ∃ f arg,
      kprobe_get_func hs call = some f ∧
      f.annotate = annotate_fn.probe_func_annotate ∧
      f.loc_assign = loc_assign_fn.probe_func_loc_assign ∧
      f.compile = compile_fn.probe_func_compile ∧
      (func_annotate f A call).1 = 0 ∧
      (func_annotate f A call).2.vargs = [arg] ∧
      arg.type = type_t.TYPE_INT ∧
      arg.integer = r ∧
      arg.parent = some call.self ∧
      (func_annotate f A call).2.self = call.self ∧
      (func_annotate f A call).2.node.dyn.type = type_t.TYPE_INT ∧
      (func_annotate f A call).2.node.dump = some dumper_t.dump_sym := by
  subst hr
  have hnot : ¬ A.arch_reg_func < 0 := not_lt.mpr hr0
  refine ⟨if call.node.string = "func" then probe_func_func else probe_probefunc_func,
    { node_int_new A.arch_reg_func with parent := some call.self }, ?_⟩
  rcases hname with hn | hn
  · cases hs <;>
      simp [kprobe_get_func, generic_get_func, kprobe_funcs, hn, List.find?, probe_reg_func,
        probe_func_func, MODULE_FUNC_LOC, func_annotate, probe_func_annotate, hargs, hnot,
        node_int_new, set_int_result]
  · cases hs <;>
      simp [kprobe_get_func, generic_get_func, kprobe_funcs, hn, List.find?, probe_reg_func,
        probe_func_func, probe_probefunc_func, MODULE_FUNC_LOC, MODULE_FUNC_ALIAS,
        func_annotate, probe_func_annotate, hargs, hnot, node_int_new, set_int_result]

/-- Witness of func_probefunc_alias_annotate: probefunc() on the example
64-bit architecture, whose function-entry register index is 16. -/
theorem func_probefunc_alias_annotate_witness :
    ∃ f arg,
      kprobe_get_func false (mk_call "probefunc" []) = some f ∧
      f.annotate = annotate_fn.probe_func_annotate ∧
      f.loc_assign = loc_assign_fn.probe_func_loc_assign ∧
      f.compile = compile_fn.probe_func_compile ∧
      (func_annotate f arch_example64 (mk_call "probefunc" [])).1 = 0 ∧
      (func_annotate f arch_example64 (mk_call "probefunc" [])).2.vargs = [arg] ∧
      arg.type = type_t.TYPE_INT ∧
      arg.integer = 16 ∧
      arg.parent = some (mk_call "probefunc" []).self ∧
      (func_annotate f arch_example64 (mk_call "probefunc" [])).2.self
        = (mk_call "probefunc" []).self ∧
      (func_annotate f arch_example64 (mk_call "probefunc" [])).2.node.dyn.type
        = type_t.TYPE_INT ∧
      (func_annotate f arch_example64 (mk_call "probefunc" [])).2.node.dump
        = some dumper_t.dump_sym :=
  func_probefunc_alias_annotate false arch_example64 (mk_call "probefunc" []) 16
    (Or.inr rfl) rfl rfl (by decide)

/-- C4 (counterexample): with the bounded allocator and 510 of the 512 budget
bytes already handed out, assigning a location to a register-bound reg call of
size 8 would exceed the budget, yet probe_reg_loc_assign returns success (0),
not a resource-exhaustion failure. -/
theorem probe_reg_loc_assign_over_budget_succeeds :
    STACK_BUDGET < (probe_t.mk 510).used + call_reg_in_register.node.dyn.size ∧
    call_reg_in_register.node.dyn.loc = loc_t.LOC_REG ∧
    (probe_reg_loc_assign bounded_stack_get (probe_t.mk 510) call_reg_in_register).map
      (fun r => r.1) = some 0 := by
  simp [probe_reg_loc_assign, call_reg_in_register, STACK_BUDGET]

/-- C4 (amended): probe_reg_loc_assign has no failure path.  For every
allocator, probe and call with at least one argument it returns success (0);
when the storage class of the call is REGISTER the probe is left as the
allocator returned it for one request of call.dyn.size bytes, otherwise the
probe is untouched. -/
theorem probe_reg_loc_assign_never_fails (alloc : probe_t → Nat → probe_t × Int)
    (probe : probe_t) (call : call_node) (hargs : call.vargs ≠ []) :
    ∃ call1 : call_node,
      probe_reg_loc_assign alloc probe call
        = some (0, call1,
            if call.node.dyn.loc = loc_t.LOC_REG then (alloc probe call.node.dyn.size).1
            else probe) := by
  obtain ⟨arg, rest, hv⟩ := List.exists_cons_of_ne_nil hargs
  unfold probe_reg_loc_assign
  by_cases hloc : call.node.dyn.loc = loc_t.LOC_REG
  · simp [hloc, hv]
  · simp [hloc, hv]

/-- Witness of probe_reg_loc_assign_never_fails: a register-bound reg(10)
with the bounded allocator and a fresh probe. -/
theorem probe_reg_loc_assign_never_fails_witness :
    ∃ call1 : call_node,
      probe_reg_loc_assign bounded_stack_get (probe_t.mk 0) call_reg_in_register
        = some (0, call1,
            if call_reg_in_register.node.dyn.loc = loc_t.LOC_REG then
              (bounded_stack_get (probe_t.mk 0) call_reg_in_register.node.dyn.size).1
            else probe_t.mk 0) :=
  probe_reg_loc_assign_never_fails bounded_stack_get (probe_t.mk 0) call_reg_in_register
    (by simp [call_reg_in_register])

/-- C5 (counterexample): in a build without stack-map support, resolving
stack() fails on both modules already at lookup (NotFound), so the failure is a
lookup error and no location-assignment callback is ever reached. -/
theorem stack_without_stackmap_is_lookup_error :
    kprobe_get_func false (mk_call "stack" []) = none ∧
    kretprobe_get_func false (mk_call "stack" []) = none := by
  simp [kprobe_get_func, kretprobe_get_func, generic_get_func, kprobe_funcs, kretprobe_funcs,
    mk_call, List.find?, probe_reg_func, probe_func_func, probe_probefunc_func,
    kprobe_arg_func, kretprobe_retval_func, MODULE_FUNC_LOC, MODULE_FUNC_ALIAS]

/-- C5 (amended): in a build without stack-map support, every call named
stack fails to resolve on the entry-probe and on the return-probe module with
the lookup error, and no descriptor of either table points to a stack callback
(annotate, assign-location or compile), so probe_stack_loc_assign, the only
place that takes a reference on the stack-trace map, cannot be reached. -/
theorem stack_without_stackmap_not_found (call : call_node)
    (hname : call.node.string = "stack") :
    kprobe_get_func false call = none ∧
    kretprobe_get_func false call = none ∧
    ∀ f ∈ kprobe_funcs false ++ kretprobe_funcs false,
      f.annotate ≠ annotate_fn.probe_stack_annotate ∧
      f.loc_assign ≠ loc_assign_fn.probe_stack_loc_assign ∧
      f.compile ≠ compile_fn.probe_stack_compile := by
  refine ⟨?_, ?_, ?_⟩
  · simp [kprobe_get_func, generic_get_func, kprobe_funcs, hname, List.find?, probe_reg_func,
      probe_func_func, probe_probefunc_func, kprobe_arg_func, MODULE_FUNC_LOC,
      MODULE_FUNC_ALIAS]
  · simp [kretprobe_get_func, generic_get_func, kretprobe_funcs, hname, List.find?,
      probe_reg_func, kretprobe_retval_func, MODULE_FUNC_LOC]
  · intro f hf
    simp only [kprobe_funcs, kretprobe_funcs, Bool.false_eq_true, if_false, List.append_nil,
      List.cons_append, List.nil_append, List.mem_cons, List.mem_singleton,
      List.not_mem_nil, or_false] at hf
    rcases hf with h | h | h | h | h | h <;> subst h <;>
      simp [probe_reg_func, probe_func_func, probe_probefunc_func, kprobe_arg_func,
        kretprobe_retval_func, MODULE_FUNC_LOC, MODULE_FUNC_ALIAS]

/-- Witness of stack_without_stackmap_not_found: the call stack(). -/
theorem stack_without_stackmap_not_found_witness :
    kprobe_get_func false (mk_call "stack" []) = none ∧
    kretprobe_get_func false (mk_call "stack" []) = none ∧
    ∀ f ∈ kprobe_funcs false ++ kretprobe_funcs false,
      f.annotate ≠ annotate_fn.probe_stack_annotate ∧
      f.loc_assign ≠ loc_assign_fn.probe_stack_loc_assign ∧
      f.compile ≠ compile_fn.probe_stack_compile :=
  stack_without_stackmap_not_found (mk_call "stack" []) rfl

/-- C6 (counterexample): after probe_reg_loc_assign on a register-bound call
the storage class of the call is still REGISTER, not STACK. -/
theorem probe_reg_loc_assign_keeps_loc_reg :
    call_reg_in_register.node.dyn.loc = loc_t.LOC_REG ∧
    (probe_reg_loc_assign bounded_stack_get (probe_t.mk 0) call_reg_in_register).map
      (fun r => r.2.1.node.dyn.loc) = some loc_t.LOC_REG ∧
    (probe_reg_loc_assign bounded_stack_get (probe_t.mk 0) call_reg_in_register).map
      (fun r => r.2.1.node.dyn.loc) ≠ some loc_t.LOC_STACK := by
  simp [probe_reg_loc_assign, call_reg_in_register]

/-- C6 (amended): for every call with at least one argument whose storage
class is REGISTER on entry, probe_reg_loc_assign requests call.dyn.size bytes
from the allocator of the enclosing probe, stores the returned offset in
call.dyn.addr and returns success; every other field of the dyn, the storage
class REGISTER included, is left as it was. -/
theorem probe_reg_loc_assign_reg_allocates (alloc : probe_t → Nat → probe_t × Int)
    (probe : probe_t) (call : call_node) (hloc : call.node.dyn.loc = loc_t.LOC_REG)
    (hargs : call.vargs ≠ []) :
    ∃ call1 : call_node,
      probe_reg_loc_assign alloc probe call
        = some (0, call1, (alloc probe call.node.dyn.size).1) ∧
      call1.node.dyn = { call.node.dyn with addr := (alloc probe call.node.dyn.size).2 } ∧
      call1.node.dyn.addr = (alloc probe call.node.dyn.size).2 ∧
      call1.node.dyn.loc = loc_t.LOC_REG := by
  obtain ⟨arg, rest, hv⟩ := List.exists_cons_of_ne_nil hargs
  unfold probe_reg_loc_assign
  simp [hloc, hv]

/-- Witness of probe_reg_loc_assign_reg_allocates: a register-bound reg(10)
on a probe that has 16 bytes in use. -/
theorem probe_reg_loc_assign_reg_allocates_witness :
    ∃ call1 : call_node,
      probe_reg_loc_assign bounded_stack_get (probe_t.mk 16) call_reg_in_register
        = some (0, call1,
            (bounded_stack_get (probe_t.mk 16) call_reg_in_register.node.dyn.size).1) ∧
      call1.node.dyn
        = { call_reg_in_register.node.dyn with
            addr := (bounded_stack_get (probe_t.mk 16) call_reg_in_register.node.dyn.size).2 } ∧
      call1.node.dyn.addr
        = (bounded_stack_get (probe_t.mk 16) call_reg_in_register.node.dyn.size).2 ∧
      call1.node.dyn.loc = loc_t.LOC_REG :=
  probe_reg_loc_assign_reg_allocates bounded_stack_get (probe_t.mk 16) call_reg_in_register
    rfl (by simp [call_reg_in_register])

/-- C7: for every call with at least one argument, whatever the storage class
of the call itself, probe_reg_loc_assign returns success, the first argument
then has storage class VIRTUAL and the same integer value as before, and the
remaining arguments are untouched; the assign-location callbacks of func, arg
and retval give the same result. -/
theorem probe_reg_loc_assign_arg_virtual (alloc : probe_t → Nat → probe_t × Int)
    (probe : probe_t) (call : call_node) (arg : node_t) (rest : List node_t)
    (hargs : call.vargs = arg :: rest) :
    ∃ (call1 : call_node) (probe1 : probe_t) (arg1 : node_t),
      probe_reg_loc_assign alloc probe call = some (0, call1, probe1) ∧
      call1.vargs = arg1 :: rest ∧
      arg1.dyn.loc = loc_t.LOC_VIRTUAL ∧
      arg1.integer = arg.integer ∧
      probe_func_loc_assign alloc probe call = some (0, call1, probe1) ∧
      kprobe_arg_loc_assign alloc probe call = some (0, call1, probe1) ∧
      kretprobe_retval_loc_assign alloc probe call = some (0, call1, probe1) := by
  unfold probe_func_loc_assign kprobe_arg_loc_assign kretprobe_retval_loc_assign
    probe_reg_loc_assign
  by_cases hloc : call.node.dyn.loc = loc_t.LOC_REG
  · simp only [hloc, if_true, hargs]
    exact ⟨_, _, _, rfl, rfl, rfl, rfl, rfl, rfl, rfl⟩
  · simp only [hloc, if_false, hargs]
    exact ⟨_, _, _, rfl, rfl, rfl, rfl, rfl, rfl, rfl⟩

/-- Witness of probe_reg_loc_assign_arg_virtual: a reg(10) whose result lives
on the stack. -/
theorem probe_reg_loc_assign_arg_virtual_witness :
    ∃ (call1 : call_node) (probe1 : probe_t) (arg1 : node_t),
      probe_reg_loc_assign bounded_stack_get (probe_t.mk 0) call_reg_on_stack
        = some (0, call1, probe1) ∧
      call1.vargs = arg1 :: [] ∧
      arg1.dyn.loc = loc_t.LOC_VIRTUAL ∧
      arg1.integer = (int_arg 10 100).integer ∧
      probe_func_loc_assign bounded_stack_get (probe_t.mk 0) call_reg_on_stack
        = some (0, call1, probe1) ∧
      kprobe_arg_loc_assign bounded_stack_get (probe_t.mk 0) call_reg_on_stack
        = some (0, call1, probe1) ∧
      kretprobe_retval_loc_assign bounded_stack_get (probe_t.mk 0) call_reg_on_stack
        = some (0, call1, probe1) :=
  probe_reg_loc_assign_arg_virtual bounded_stack_get (probe_t.mk 0) call_reg_on_stack
    (int_arg 10 100) [] rfl

/-- C8: for every program buffer and every call with one argument holding
index i and dyn address a, probe_reg_compile keeps the buffer as a prefix of
its result and appends, in order, the instructions of emit_stack_zero, then
MOV r1,r10; ADD r1,a; MOV_IMM r2,arch_reg_width(); MOV r3,r9;
ADD r3,sizeof(uintptr_t)*i; CALL probe_read, and then, exactly when the
storage class of the call is REGISTER, the instructions of one emit_xfer_dyns
from a copy of the dyn with storage class STACK to the dyn itself, whose
return value is the result; otherwise nothing more is emitted and the result
is 0. -/
theorem probe_reg_compile_sequence (A : arch_t) (E : emitter_t) (call : call_node)
    (prog : prog_t) (arg : node_t) (hargs : call.vargs = [arg]) :
    probe_reg_compile A E call prog
      = some
          (if call.node.dyn.loc = loc_t.LOC_REG then
             (E.emit_xfer_dyns call.node.dyn
               { call.node.dyn with loc := loc_t.LOC_STACK }).2
           else 0,
           prog ++
             (E.emit_stack_zero call ++
               [MOV BPF_REG_1 BPF_REG_10,
                ALU_IMM alu_op.BPF_ADD BPF_REG_1 call.node.dyn.addr,
                MOV_IMM BPF_REG_2 A.arch_reg_width,
                MOV BPF_REG_3 BPF_REG_9,
                ALU_IMM alu_op.BPF_ADD BPF_REG_3 (A.sizeof_uintptr * arg.integer),
                CALL bpf_func_id.BPF_FUNC_probe_read] ++
               (if call.node.dyn.loc = loc_t.LOC_REG then
                  (E.emit_xfer_dyns call.node.dyn
                    { call.node.dyn with loc := loc_t.LOC_STACK }).1
                else []))) ∧
    ∃ (ret : Int) (out : prog_t),
      probe_reg_compile A E call prog = some (ret, out) ∧ prog <+: out := by
  have key : probe_reg_compile A E call prog
      = some
          (if call.node.dyn.loc = loc_t.LOC_REG then
             (E.emit_xfer_dyns call.node.dyn
               { call.node.dyn with loc := loc_t.LOC_STACK }).2
           else 0,
           prog ++
             (E.emit_stack_zero call ++
               [MOV BPF_REG_1 BPF_REG_10,
                ALU_IMM alu_op.BPF_ADD BPF_REG_1 call.node.dyn.addr,
                MOV_IMM BPF_REG_2 A.arch_reg_width,
                MOV BPF_REG_3 BPF_REG_9,
                ALU_IMM alu_op.BPF_ADD BPF_REG_3 (A.sizeof_uintptr * arg.integer),
                CALL bpf_func_id.BPF_FUNC_probe_read] ++
               (if call.node.dyn.loc = loc_t.LOC_REG then
                  (E.emit_xfer_dyns call.node.dyn
                    { call.node.dyn with loc := loc_t.LOC_STACK }).1
                else []))) := by
    unfold probe_reg_compile
    rw [hargs]
    by_cases hloc : call.node.dyn.loc = loc_t.LOC_REG
    · simp [hloc, emit, List.append_assoc]
    · simp [hloc, emit, List.append_assoc]
  exact ⟨key, _, _, key, List.prefix_append _ _⟩

/-- Witness of probe_reg_compile_sequence: a register-bound reg(10) compiled
after one earlier instruction on the example 64-bit architecture. -/
theorem probe_reg_compile_sequence_witness :
    probe_reg_compile arch_example64 emitter_example call_reg_in_register [MOV 6 1]
      = some
          (if call_reg_in_register.node.dyn.loc = loc_t.LOC_REG then
             (emitter_example.emit_xfer_dyns call_reg_in_register.node.dyn
               { call_reg_in_register.node.dyn with loc := loc_t.LOC_STACK }).2
           else 0,
           [MOV 6 1] ++
             (emitter_example.emit_stack_zero call_reg_in_register ++
               [MOV BPF_REG_1 BPF_REG_10,
                ALU_IMM alu_op.BPF_ADD BPF_REG_1 call_reg_in_register.node.dyn.addr,
                MOV_IMM BPF_REG_2 arch_example64.arch_reg_width,
                MOV BPF_REG_3 BPF_REG_9,
                ALU_IMM alu_op.BPF_ADD BPF_REG_3
                  (arch_example64.sizeof_uintptr * (int_arg 10 100).integer),
                CALL bpf_func_id.BPF_FUNC_probe_read] ++
               (if call_reg_in_register.node.dyn.loc = loc_t.LOC_REG then
                  (emitter_example.emit_xfer_dyns call_reg_in_register.node.dyn
                    { call_reg_in_register.node.dyn with loc := loc_t.LOC_STACK }).1
                else []))) ∧
    ∃ (ret : Int) (out : prog_t),
      probe_reg_compile arch_example64 emitter_example call_reg_in_register [MOV 6 1]
        = some (ret, out) ∧ [MOV 6 1] <+: out :=
  probe_reg_compile_sequence arch_example64 emitter_example call_reg_in_register [MOV 6 1]
    (int_arg 10 100) rfl

/-- C9: for every call with exactly one integer-literal argument n, if
arch_reg_arg(n) is at least 0 then kprobe_arg_annotate returns 0, the literal
now holds arch_reg_arg(n) (every other field of the argument is unchanged),
and the result type is integer of size sizeof(int64_t) = 8; if
arch_reg_arg(n) is negative, kprobe_arg_annotate returns exactly that value. -/
theorem kprobe_arg_annotate_resolves (A : arch_t) (call : call_node) (arg : node_t)
    (hargs : call.vargs = [arg]) (hint : arg.type = type_t.TYPE_INT) :
    (0 ≤ A.arch_reg_arg arg.integer →
      (kprobe_arg_annotate A call).1 = 0 ∧
      (kprobe_arg_annotate A call).2.vargs
        = [{ arg with integer := A.arch_reg_arg arg.integer }] ∧
      (kprobe_arg_annotate A call).2.node.dyn.type = type_t.TYPE_INT ∧
      (kprobe_arg_annotate A call).2.node.dyn.size = 8) ∧
    (A.arch_reg_arg arg.integer < 0 →
      (kprobe_arg_annotate A call).1 = A.arch_reg_arg arg.integer) := by
  unfold kprobe_arg_annotate
  rw [hargs]
  constructor
  · intro h
    have hnot : ¬ A.arch_reg_arg arg.integer < 0 := not_lt.mpr h
    simp [hint, hnot, set_int_result, sizeof_int64]
  · intro h
    simp [hint, h]

/-- Witness of kprobe_arg_annotate_resolves: arg(1) resolves to register
index 13 on the example 64-bit architecture, and arg(7) fails with the error
of the calling-convention table. -/
theorem kprobe_arg_annotate_resolves_witness :
    ((kprobe_arg_annotate arch_example64 call_arg_1).1 = 0 ∧
      (kprobe_arg_annotate arch_example64 call_arg_1).2.vargs = [int_arg 13 100] ∧
      (kprobe_arg_annotate arch_example64 call_arg_1).2.node.dyn.type = type_t.TYPE_INT ∧
      (kprobe_arg_annotate arch_example64 call_arg_1).2.node.dyn.size = 8) ∧
    (kprobe_arg_annotate arch_example64 call_arg_7).1 = -ENOSYS :=
  ⟨(kprobe_arg_annotate_resolves arch_example64 call_arg_1 (int_arg 1 100) rfl rfl).1
      (by decide),
   (kprobe_arg_annotate_resolves arch_example64 call_arg_7 (int_arg 7 100) rfl rfl).2
      (by decide)⟩

/-- C10: for every call without arguments, if arch_reg_retval() = r with r at
least 0 then kretprobe_retval_annotate returns 0 and leaves the call with
exactly one argument, an integer literal equal to r whose parent is the call,
with result type integer and the node tagged dump_sym; if arch_reg_retval()
is negative, kretprobe_retval_annotate returns that value. -/
theorem kretprobe_retval_annotate_synthesizes (A : arch_t) (call : call_node)
    (hargs : call.vargs = []) :
    (0 ≤ A.arch_reg_retval →
      ∃ arg : node_t,
        (kretprobe_retval_annotate A call).1 = 0 ∧
        (kretprobe_retval_annotate A call).2.vargs = [arg] ∧
        arg.type = type_t.TYPE_INT ∧
        arg.integer = A.arch_reg_retval ∧
        arg.parent = some call.self ∧
        (kretprobe_retval_annotate A call).2.self = call.self ∧
        (kretprobe_retval_annotate A call).2.node.dyn.type = type_t.TYPE_INT ∧
        (kretprobe_retval_annotate A call).2.node.dump = some dumper_t.dump_sym) ∧
    (A.arch_reg_retval < 0 →
      (kretprobe_retval_annotate A call).1 = A.arch_reg_retval) := by
  unfold kretprobe_retval_annotate
  rw [hargs]
  constructor
  · intro h
    have hnot : ¬ A.arch_reg_retval < 0 := not_lt.mpr h
    refine ⟨{ node_int_new A.arch_reg_retval with parent := some call.self }, ?_⟩
    simp [hnot, node_int_new, set_int_result]
  · intro h
    simp [h]

/-- Witness of kretprobe_retval_annotate_synthesizes: retval() succeeds on
the example 64-bit architecture, whose return-value register index is 10, and
fails with the error of the architecture that has no such register. -/
theorem kretprobe_retval_annotate_synthesizes_witness :
    (∃ arg : node_t,
        (kretprobe_retval_annotate arch_example64 call_retval).1 = 0 ∧
        (kretprobe_retval_annotate arch_example64 call_retval).2.vargs = [arg] ∧
        arg.type = type_t.TYPE_INT ∧
        arg.integer = 10 ∧
        arg.parent = some 100 ∧
        (kretprobe_retval_annotate arch_example64 call_retval).2.self = 100 ∧
        (kretprobe_retval_annotate arch_example64 call_retval).2.node.dyn.type
          = type_t.TYPE_INT ∧
        (kretprobe_retval_annotate arch_example64 call_retval).2.node.dump
          = some dumper_t.dump_sym) ∧
    (kretprobe_retval_annotate arch_no_retval call_retval).1 = -ENOSYS :=
  ⟨(kretprobe_retval_annotate_synthesizes arch_example64 call_retval rfl).1 (by decide),
   (kretprobe_retval_annotate_synthesizes arch_no_retval call_retval rfl).2 (by decide)⟩

/-- C11 (counterexample): the type error is not distinct from the
unknown-symbol errors.  On the example 64-bit architecture, whose tables
answer -ENOSYS for what they do not know, arg("x") fails with the type error
-ENOSYS and arg(7), an integer literal the calling-convention table does not
resolve, fails with the same value; likewise reg applied to a nested call and
reg("nosuch"). -/
theorem type_error_equals_unknown_symbol_error :
    (kprobe_arg_annotate arch_example64 call_arg_str).1 = -ENOSYS ∧
    arch_example64.arch_reg_arg 7 = -ENOSYS ∧
    (kprobe_arg_annotate arch_example64 call_arg_7).1 = -ENOSYS ∧
    (kprobe_arg_annotate arch_example64 call_arg_str).1
      = (kprobe_arg_annotate arch_example64 call_arg_7).1 ∧
    (probe_reg_annotate arch_example64 call_reg_nested).1 = -ENOSYS ∧
    arch_example64.arch_reg_atoi "nosuch" = -ENOSYS ∧
    (probe_reg_annotate arch_example64 call_reg_unknown).1 = -ENOSYS ∧
    (probe_reg_annotate arch_example64 call_reg_nested).1
      = (probe_reg_annotate arch_example64 call_reg_unknown).1 := by
  decide

/-- C11 (amended): for every call with exactly one argument of an unsupported
type (for reg neither string nor integer, for arg not an integer) annotation
returns -ENOSYS whatever the architecture tables are, -ENOSYS differs from the
bad-arity value -EINVAL, the call with its argument and its dyn is exactly as
before, and annotating the node again returns the same error.  Nothing is
said about the unknown-symbol errors, which are the values the architecture
tables return. -/
theorem annotate_unsupported_type (A : arch_t) (call : call_node) (arg : node_t)
    (hargs : call.vargs = [arg]) (hint : arg.type ≠ type_t.TYPE_INT) :
    (arg.type ≠ type_t.TYPE_STR →
      probe_reg_annotate A call = (-ENOSYS, call) ∧
      probe_reg_annotate A (probe_reg_annotate A call).2 = (-ENOSYS, call)) ∧
    kprobe_arg_annotate A call = (-ENOSYS, call) ∧
    kprobe_arg_annotate A (kprobe_arg_annotate A call).2 = (-ENOSYS, call) ∧
    -ENOSYS ≠ -EINVAL := by
  have hreg : arg.type ≠ type_t.TYPE_STR → probe_reg_annotate A call = (-ENOSYS, call) := by
    intro hstr
    unfold probe_reg_annotate
    rw [hargs]
    simp [hstr, hint]
  have harg : kprobe_arg_annotate A call = (-ENOSYS, call) := by
    unfold kprobe_arg_annotate
    rw [hargs]
    simp [hint]
  refine ⟨fun hstr => ?_, harg, ?_, by decide⟩
  · have h := hreg hstr
    exact ⟨h, by rw [h]; exact h⟩
  · rw [harg]; exact harg

/-- Witness of annotate_unsupported_type: reg applied to a nested call, and
arg applied to the same argument. -/
theorem annotate_unsupported_type_witness :
    (probe_reg_annotate arch_example64 call_reg_nested = (-ENOSYS, call_reg_nested) ∧
      probe_reg_annotate arch_example64 (probe_reg_annotate arch_example64 call_reg_nested).2
        = (-ENOSYS, call_reg_nested)) ∧
    kprobe_arg_annotate arch_example64 call_reg_nested = (-ENOSYS, call_reg_nested) ∧
    kprobe_arg_annotate arch_example64 (kprobe_arg_annotate arch_example64 call_reg_nested).2
      = (-ENOSYS, call_reg_nested) ∧
    -ENOSYS ≠ -EINVAL :=
  have h := annotate_unsupported_type arch_example64 call_reg_nested
    { type := type_t.TYPE_CALL, string := "f", integer := 0, parent := some 100,
      dyn := dyn_zero, dump := none } rfl (by decide)
  ⟨h.1 (by decide), h.2⟩

/-- C12 (counterexample): on tables that answer -EINVAL for an unknown
register name or argument index, reg("nosuch") and arg(7) have exactly one
argument and still return -EINVAL. -/
theorem one_argument_can_return_einval :
    call_reg_unknown.vargs.length = 1 ∧
    (probe_reg_annotate arch_einval_tables call_reg_unknown).1 = -EINVAL ∧
    call_arg_7.vargs.length = 1 ∧
    (kprobe_arg_annotate arch_einval_tables call_arg_7).1 = -EINVAL := by
  decide

/-- C12 (amended): every annotate callback checks the argument count first.  A
call of reg or arg without exactly one argument, and a call of func, retval
or stack with an argument, is rejected with -EINVAL and left as it was,
whatever the architecture tables are.  With exactly one argument, reg returns
-EINVAL exactly when the argument is a string for which arch_reg_atoi itself
answers -EINVAL, and arg returns -EINVAL exactly when the argument is an
integer for which arch_reg_arg itself answers -EINVAL. -/
theorem annotate_bad_arity (A : arch_t) (call : call_node) :
    (call.vargs.length ≠ 1 →
      ∀ B : arch_t, probe_reg_annotate B call = (-EINVAL, call) ∧
        kprobe_arg_annotate B call = (-EINVAL, call)) ∧
    (call.vargs ≠ [] →
      ∀ B : arch_t, probe_func_annotate B call = (-EINVAL, call) ∧
        kretprobe_retval_annotate B call = (-EINVAL, call) ∧
        probe_stack_annotate call = (-EINVAL, call)) ∧
    (∀ arg : node_t, call.vargs = [arg] →
      ((probe_reg_annotate A call).1 = -EINVAL ↔
        arg.type = type_t.TYPE_STR ∧ A.arch_reg_atoi arg.string = -EINVAL) ∧
      ((kprobe_arg_annotate A call).1 = -EINVAL ↔
        arg.type = type_t.TYPE_INT ∧ A.arch_reg_arg arg.integer = -EINVAL)) := by
  have h38 : ¬ ENOSYS = EINVAL := by decide
  have h0 : ¬ EINVAL = 0 := by decide
  have hneg : (-EINVAL : Int) < 0 := by decide
  refine ⟨?_, ?_, ?_⟩
  · intro hlen B
    rcases hv : call.vargs with _ | ⟨a, _ | ⟨b, rest⟩⟩
    · simp [probe_reg_annotate, kprobe_arg_annotate, hv]
    · simp [hv] at hlen
    · simp [probe_reg_annotate, kprobe_arg_annotate, hv]
  · intro hne B
    rcases hv : call.vargs with _ | ⟨a, rest⟩
    · exact absurd hv hne
    · simp [probe_func_annotate, kretprobe_retval_annotate, probe_stack_annotate, hv]
  · intro arg hv
    constructor
    · simp only [probe_reg_annotate, hv]
      by_cases hstr : arg.type = type_t.TYPE_STR
      · by_cases hlt : A.arch_reg_atoi arg.string < 0
        · simp [hstr, hlt]
        · have hne : ¬ A.arch_reg_atoi arg.string = -EINVAL := by
            intro h; rw [h] at hlt; exact hlt hneg
          simp [hstr, hlt, hne, h0]
      · by_cases hint : arg.type = type_t.TYPE_INT
        · simp [hstr, hint, h0]
        · simp [hstr, hint, h38]
    · simp only [kprobe_arg_annotate, hv]
      by_cases hint : arg.type = type_t.TYPE_INT
      · by_cases hlt : A.arch_reg_arg arg.integer < 0
        · simp [hint, hlt]
        · have hne : ¬ A.arch_reg_arg arg.integer = -EINVAL := by
            intro h; rw [h] at hlt; exact hlt hneg
          simp [hint, hlt, hne, h0]
      · simp [hint, h38]

/-- Witness of annotate_bad_arity: reg(1, 2) is rejected by all five callbacks
whatever the tables are, and on the example 64-bit architecture, whose tables
never answer -EINVAL, reg("nosuch") and arg(7) do not return -EINVAL. -/
theorem annotate_bad_arity_witness :
    (∀ B : arch_t, probe_reg_annotate B call_reg_two = (-EINVAL, call_reg_two) ∧
        kprobe_arg_annotate B call_reg_two = (-EINVAL, call_reg_two)) ∧
    (∀ B : arch_t, probe_func_annotate B call_reg_two = (-EINVAL, call_reg_two) ∧
        kretprobe_retval_annotate B call_reg_two = (-EINVAL, call_reg_two) ∧
        probe_stack_annotate call_reg_two = (-EINVAL, call_reg_two)) ∧
    (probe_reg_annotate arch_example64 call_reg_unknown).1 ≠ -EINVAL ∧
    (kprobe_arg_annotate arch_example64 call_arg_7).1 ≠ -EINVAL :=
  have h := annotate_bad_arity arch_example64 call_reg_two
  have hu := (annotate_bad_arity arch_example64 call_reg_unknown).2.2
    (str_arg "nosuch" 100) rfl
  have h7 := (annotate_bad_arity arch_example64 call_arg_7).2.2 (int_arg 7 100) rfl
  ⟨h.1 (by decide), h.2.1 (by simp [call_reg_two, mk_call]),
   fun he => absurd (hu.1.mp he).2 (by decide),
   fun he => absurd (h7.2.mp he).2 (by decide)⟩

/-- C13: annotation is atomic.  Whenever one of the five annotate callbacks
returns a failure (a value other than 0), the call node, its argument list
with every argument, and its dyn are exactly as they were before. -/
theorem annotate_failure_leaves_call (A : arch_t) (call : call_node) :
    ((probe_reg_annotate A call).1 ≠ 0 → (probe_reg_annotate A call).2 = call) ∧
    ((probe_func_annotate A call).1 ≠ 0 → (probe_func_annotate A call).2 = call) ∧
    ((kprobe_arg_annotate A call).1 ≠ 0 → (kprobe_arg_annotate A call).2 = call) ∧
    ((kretprobe_retval_annotate A call).1 ≠ 0 →
      (kretprobe_retval_annotate A call).2 = call) ∧
    ((probe_stack_annotate call).1 ≠ 0 → (probe_stack_annotate call).2 = call) := by
  refine ⟨?_, ?_, ?_, ?_, ?_⟩
  · unfold probe_reg_annotate
    rcases call.vargs with _ | ⟨a, _ | ⟨b, rest⟩⟩
    · simp
    · dsimp only
      split_ifs <;> simp
    · simp
  · unfold probe_func_annotate
    rcases call.vargs with _ | ⟨a, rest⟩
    · dsimp only
      split_ifs <;> simp
    · simp
  · unfold kprobe_arg_annotate
    rcases call.vargs with _ | ⟨a, _ | ⟨b, rest⟩⟩
    · simp
    · dsimp only
      split_ifs <;> simp
    · simp
  · unfold kretprobe_retval_annotate
    rcases call.vargs with _ | ⟨a, rest⟩
    · dsimp only
      split_ifs <;> simp
    · simp
  · unfold probe_stack_annotate
    rcases call.vargs with _ | ⟨a, rest⟩
    · simp
    · simp

/-- Witness of annotate_failure_leaves_call: reg("nosuch") fails with the
error of the register-name table and func(1) fails with bad arity; both calls
are left as they were. -/
theorem annotate_failure_leaves_call_witness :
    (probe_reg_annotate arch_example64 call_reg_unknown).1 = -ENOSYS ∧
    (probe_reg_annotate arch_example64 call_reg_unknown).2 = call_reg_unknown ∧
    (probe_func_annotate arch_example64 call_func_one).1 = -EINVAL ∧
    (probe_func_annotate arch_example64 call_func_one).2 = call_func_one :=
  ⟨by decide,
   (annotate_failure_leaves_call arch_example64 call_reg_unknown).1 (by decide),
   by decide,
   (annotate_failure_leaves_call arch_example64 call_func_one).2.1 (by decide)⟩

/-- C14 (counterexample): the name func is neither arg nor retval, yet it
resolves in the entry-probe module and is not found in the return-probe
module. -/
theorem func_resolves_only_in_kprobe :
    (mk_call "func" []).node.string ≠ "arg" ∧
    (mk_call "func" []).node.string ≠ "retval" ∧
    kprobe_get_func true (mk_call "func" []) = some probe_func_func ∧
    kretprobe_get_func true (mk_call "func" []) = none ∧
    kprobe_get_func true (mk_call "func" []) ≠ kretprobe_get_func true (mk_call "func" []) := by
  simp [kprobe_get_func, kretprobe_get_func, generic_get_func, kprobe_funcs, kretprobe_funcs,
    mk_call, List.find?, probe_reg_func, probe_func_func, probe_probefunc_func,
    probe_stack_func, kprobe_arg_func, kretprobe_retval_func, MODULE_FUNC_LOC,
    MODULE_FUNC_ALIAS]

/-- C14 (amended): the two modules diverge on arg and retval and on func and
probefunc, which only the entry-probe module has.  For every call name other
than these four, resolving it in the entry-probe module and in the
return-probe module gives the same outcome: the same descriptor or not-found
in both. -/
theorem modules_agree_off_divergent_names (hs : Bool) (call : call_node)
    (harg : call.node.string ≠ "arg") (hretval : call.node.string ≠ "retval")
    (hfunc : call.node.string ≠ "func") (hprobefunc : call.node.string ≠ "probefunc") :
    kprobe_get_func hs call = kretprobe_get_func hs call := by
  have h1 : ("arg" == call.node.string) = false := beq_false_of_ne (Ne.symm harg)
  have h2 : ("retval" == call.node.string) = false := beq_false_of_ne (Ne.symm hretval)
  have h3 : ("func" == call.node.string) = false := beq_false_of_ne (Ne.symm hfunc)
  have h4 : ("probefunc" == call.node.string) = false := beq_false_of_ne (Ne.symm hprobefunc)
  cases hs <;>
    simp [kprobe_get_func, kretprobe_get_func, generic_get_func, kprobe_funcs, kretprobe_funcs,
      List.find?, probe_reg_func, probe_func_func, probe_probefunc_func, probe_stack_func,
      kprobe_arg_func, kretprobe_retval_func, MODULE_FUNC_LOC, MODULE_FUNC_ALIAS,
      h1, h2, h3, h4]

/-- Witness of modules_agree_off_divergent_names: the call stack() in a build
with stack-map support. -/
theorem modules_agree_off_divergent_names_witness :
    kprobe_get_func true call_stack = kretprobe_get_func true call_stack :=
  modules_agree_off_divergent_names true call_stack (by decide) (by decide) (by decide)
    (by decide)

/-- C15 (counterexample): annotating stack() succeeds with the stack-trace
handle type, but on an architecture whose pointer width is four bytes the
result size is 8, not arch_reg_width(). -/
theorem probe_stack_annotate_size_not_reg_width :
    (probe_stack_annotate call_stack).1 = 0 ∧
    (probe_stack_annotate call_stack).2.node.dyn.type = type_t.TYPE_STACK ∧
    (probe_stack_annotate call_stack).2.node.dyn.size = 8 ∧
    ((probe_stack_annotate call_stack).2.node.dyn.size : Int)
      ≠ arch_example32.arch_reg_width := by
  simp [probe_stack_annotate, call_stack, mk_call, arch_example32]

/-- C15 (amended): for every call node with zero arguments,
probe_stack_annotate returns success and sets the result type of the call to
TYPE_STACK and its result size to the constant 8, whatever arch_reg_width()
is; nothing else of the call changes. -/
theorem probe_stack_annotate_ok (call : call_node) (hargs : call.vargs = []) :
    probe_stack_annotate call
      = (0, { call with
                node := { call.node with
                            dyn := { call.node.dyn with
                                       type := type_t.TYPE_STACK, size := 8 } } }) ∧
    (probe_stack_annotate call).1 = 0 ∧
    (probe_stack_annotate call).2.node.dyn.type = type_t.TYPE_STACK ∧
    (probe_stack_annotate call).2.node.dyn.size = 8 := by
  unfold probe_stack_annotate
  rw [hargs]
  simp

/-- Witness of probe_stack_annotate_ok: the call stack(). -/
theorem probe_stack_annotate_ok_witness :
    probe_stack_annotate call_stack
      = (0, { call_stack with
                node := { call_stack.node with
                            dyn := { call_stack.node.dyn with
                                       type := type_t.TYPE_STACK, size := 8 } } }) ∧
    (probe_stack_annotate call_stack).1 = 0 ∧
    (probe_stack_annotate call_stack).2.node.dyn.type = type_t.TYPE_STACK ∧
    (probe_stack_annotate call_stack).2.node.dyn.size = 8 :=
  probe_stack_annotate_ok call_stack rfl

/-- C16: for every call to stack in a script whose symbol table holds a
stack-trace map with handle fd, and every program buffer, probe_stack_compile
keeps the buffer as a prefix of its result and appends, in order, MOV r1,r9;
the load of the map handle fd into r2 (emit_ld_mapfd); MOV_IMM r3,0;
CALL get_stackid; and the instructions of one emit_xfer_dyns from the location
record of register r0 to the dyn of the call, whose return value is the
result. -/
theorem probe_stack_compile_sequence (S : stack_env_t) (E : emitter_t) (st : symtable_t)
    (call : call_node) (prog : prog_t) (s : sym_t) (fd : Int)
    (hget : S.symtable_get_stack st = some s) (hfd : s.map.fd = fd) :
    probe_stack_compile S E st call prog
      = some
          ((E.emit_xfer_dyns call.node.dyn (S.dyn_reg BPF_REG_0)).2,
           prog ++
             ([MOV BPF_REG_1 BPF_REG_9] ++ S.emit_ld_mapfd BPF_REG_2 fd ++
               [MOV_IMM BPF_REG_3 0, CALL bpf_func_id.BPF_FUNC_get_stackid] ++
               (E.emit_xfer_dyns call.node.dyn (S.dyn_reg BPF_REG_0)).1)) ∧
    ∃ (ret : Int) (out : prog_t),
      probe_stack_compile S E st call prog = some (ret, out) ∧ prog <+: out := by
  have key : probe_stack_compile S E st call prog
      = some
          ((E.emit_xfer_dyns call.node.dyn (S.dyn_reg BPF_REG_0)).2,
           prog ++
             ([MOV BPF_REG_1 BPF_REG_9] ++ S.emit_ld_mapfd BPF_REG_2 fd ++
               [MOV_IMM BPF_REG_3 0, CALL bpf_func_id.BPF_FUNC_get_stackid] ++
               (E.emit_xfer_dyns call.node.dyn (S.dyn_reg BPF_REG_0)).1)) := by
    unfold probe_stack_compile
    rw [hget]
    simp [emit, hfd, List.append_assoc]
  exact ⟨key, _, _, key, List.prefix_append _ _⟩

/-- Witness of probe_stack_compile_sequence: stack() placed in register 7, in
a script whose stack-trace map has handle 5, compiled after one earlier
instruction. -/
theorem probe_stack_compile_sequence_witness :
    probe_stack_compile stack_env_example emitter_example symtable_with_stack
        call_stack_in_register [MOV 6 1]
      = some
          ((emitter_example.emit_xfer_dyns call_stack_in_register.node.dyn
              (stack_env_example.dyn_reg BPF_REG_0)).2,
           [MOV 6 1] ++
             ([MOV BPF_REG_1 BPF_REG_9] ++ stack_env_example.emit_ld_mapfd BPF_REG_2 5 ++
               [MOV_IMM BPF_REG_3 0, CALL bpf_func_id.BPF_FUNC_get_stackid] ++
               (emitter_example.emit_xfer_dyns call_stack_in_register.node.dyn
                 (stack_env_example.dyn_reg BPF_REG_0)).1)) ∧
    ∃ (ret : Int) (out : prog_t),
      probe_stack_compile stack_env_example emitter_example symtable_with_stack
          call_stack_in_register [MOV 6 1] = some (ret, out) ∧
        [MOV 6 1] <+: out :=
  probe_stack_compile_sequence stack_env_example emitter_example symtable_with_stack
    call_stack_in_register [MOV 6 1] { map := { fd := 5 } } 5 rfl rfl

/-- C17: probe_stack_loc_assign first calls symtable_ref_stack.  If that
returns an error, the callback returns exactly that error and the call (its
dyn included) and the probe are untouched: default_loc_assign has not run.  If
it succeeds, the reference count has been incremented once, the return value,
the call and the probe are exactly those of default_loc_assign, and the
symbol table keeps the incremented count whatever default_loc_assign
returned. -/
theorem probe_stack_loc_assign_ref_then_default (S : stack_env_t) (st : symtable_t)
    (probe : probe_t) (call : call_node) (hcount : ref_stack_counts S) :
    ((S.symtable_ref_stack st).1 ≠ 0 →
      probe_stack_loc_assign S st probe call
        = ((S.symtable_ref_stack st).1, call, probe, (S.symtable_ref_stack st).2)) ∧
    ((S.symtable_ref_stack st).1 = 0 →
      probe_stack_loc_assign S st probe call
        = ((S.default_loc_assign probe call).1, (S.default_loc_assign probe call).2.1,
            (S.default_loc_assign probe call).2.2, (S.symtable_ref_stack st).2) ∧
      (probe_stack_loc_assign S st probe call).2.2.2.stack_refs = st.stack_refs + 1) := by
  constructor
  · intro herr
    simp [probe_stack_loc_assign, herr]
  · intro hok
    have hinc := hcount st hok
    simp [probe_stack_loc_assign, hok, hinc]

/-- Witness of probe_stack_loc_assign_ref_then_default: without a stack-trace
map the error of symtable_ref_stack is returned and nothing changes; with one,
the count goes from 2 to 3 and stays there although default placement fails. -/
theorem probe_stack_loc_assign_ref_then_default_witness :
    probe_stack_loc_assign stack_env_failing_default symtable_without_stack (probe_t.mk 0)
        call_stack_in_register
      = (-ENOSYS, call_stack_in_register, probe_t.mk 0, symtable_without_stack) ∧
    (probe_stack_loc_assign stack_env_failing_default symtable_with_stack (probe_t.mk 0)
        call_stack_in_register
      = (-ENOSPC, call_stack_in_register, probe_t.mk 0,
          { stack := some { map := { fd := 5 } }, stack_refs := 3 }) ∧
      (probe_stack_loc_assign stack_env_failing_default symtable_with_stack (probe_t.mk 0)
        call_stack_in_register).2.2.2.stack_refs = symtable_with_stack.stack_refs + 1) :=
  have hcount : ref_stack_counts stack_env_failing_default := by
    intro t h
    rcases t with ⟨_ | s, n⟩
    · simp [stack_env_failing_default, stack_env_example, ENOSYS] at h
    · rfl
  ⟨(probe_stack_loc_assign_ref_then_default stack_env_failing_default symtable_without_stack
      (probe_t.mk 0) call_stack_in_register hcount).1 (by decide),
   (probe_stack_loc_assign_ref_then_default stack_env_failing_default symtable_with_stack
      (probe_t.mk 0) call_stack_in_register hcount).2 rfl⟩

/-- C18: in the sequence emitted by probe_reg_compile for a call whose single
argument holds index i, with i times the pointer width representable as a
signed 32-bit immediate (in particular for every such i that is at least 0),
the immediate added to r9 (copied to r3) is exactly i * sizeof(uintptr_t), the width moved to r2 is that same
pointer width (arch_reg_width() being the native pointer width), and r1 is
r10 plus the dyn address of the call; an operand that is representable is
stored in the immediate field as it is. -/
theorem probe_reg_compile_operands (A : arch_t) (E : emitter_t) (call : call_node)
    (prog : prog_t) (arg : node_t) (hargs : call.vargs = [arg])
    (hwidth : arch_reg_width_native A)
    (hlo : -2147483648 ≤ arg.integer * A.sizeof_uintptr)
    (hhi : arg.integer * A.sizeof_uintptr ≤ 2147483647) :
    (∃ (ret : Int) (tail : List bpf_insn),
      probe_reg_compile A E call prog
        = some (ret,
            prog ++ E.emit_stack_zero call ++
              [MOV BPF_REG_1 BPF_REG_10,
               ALU_IMM alu_op.BPF_ADD BPF_REG_1 call.node.dyn.addr,
               MOV_IMM BPF_REG_2 A.sizeof_uintptr,
               MOV BPF_REG_3 BPF_REG_9,
               bpf_insn.alu_imm alu_op.BPF_ADD BPF_REG_3 (arg.integer * A.sizeof_uintptr),
               CALL bpf_func_id.BPF_FUNC_probe_read] ++ tail)) ∧
    (∀ x : Int, -2147483648 ≤ x → x ≤ 2147483647 →
      ALU_IMM alu_op.BPF_ADD BPF_REG_1 x = bpf_insn.alu_imm alu_op.BPF_ADD BPF_REG_1 x ∧
      MOV_IMM BPF_REG_2 x = bpf_insn.mov_imm BPF_REG_2 x) := by
  have hs32 : ∀ x : Int, -2147483648 ≤ x → x ≤ 2147483647 → s32 x = x := by
    intro x h1 h2
    unfold s32
    omega
  constructor
  · have himm : s32 (A.sizeof_uintptr * arg.integer) = arg.integer * A.sizeof_uintptr := by
      rw [mul_comm]
      exact hs32 _ hlo hhi
    have hw : A.arch_reg_width = A.sizeof_uintptr := hwidth
    unfold probe_reg_compile
    rw [hargs]
    by_cases hloc : call.node.dyn.loc = loc_t.LOC_REG
    · refine ⟨(E.emit_xfer_dyns call.node.dyn
          { call.node.dyn with loc := loc_t.LOC_STACK }).2,
        (E.emit_xfer_dyns call.node.dyn
          { call.node.dyn with loc := loc_t.LOC_STACK }).1, ?_⟩
      simp [hloc, emit, ALU_IMM, himm, hw, List.append_assoc]
    · refine ⟨0, [], ?_⟩
      simp [hloc, emit, ALU_IMM, himm, hw, List.append_assoc]
  · intro x h1 h2
    simp [ALU_IMM, MOV_IMM, hs32 x h1 h2]

/-- Witness of probe_reg_compile_operands: reg(10) on the example 64-bit
architecture adds 80 to the copy of r9. -/
theorem probe_reg_compile_operands_witness :
    (∃ (ret : Int) (tail : List bpf_insn),
      probe_reg_compile arch_example64 emitter_example call_reg_on_stack []
        = some (ret,
            [] ++ emitter_example.emit_stack_zero call_reg_on_stack ++
              [MOV BPF_REG_1 BPF_REG_10,
               ALU_IMM alu_op.BPF_ADD BPF_REG_1 call_reg_on_stack.node.dyn.addr,
               MOV_IMM BPF_REG_2 arch_example64.sizeof_uintptr,
               MOV BPF_REG_3 BPF_REG_9,
               bpf_insn.alu_imm alu_op.BPF_ADD BPF_REG_3
                 ((int_arg 10 100).integer * arch_example64.sizeof_uintptr),
               CALL bpf_func_id.BPF_FUNC_probe_read] ++ tail)) ∧
    (∀ x : Int, -2147483648 ≤ x → x ≤ 2147483647 →
      ALU_IMM alu_op.BPF_ADD BPF_REG_1 x = bpf_insn.alu_imm alu_op.BPF_ADD BPF_REG_1 x ∧
      MOV_IMM BPF_REG_2 x = bpf_insn.mov_imm BPF_REG_2 x) :=
  probe_reg_compile_operands arch_example64 emitter_example call_reg_on_stack []
    (int_arg 10 100) rfl rfl (by decide) (by decide)

/-- C19: whenever the annotate callback of reg, func, arg or retval returns
success, the call has exactly one argument and an integer result of size 8;
and on every such call the dereferences of call.vargs in probe_reg_loc_assign
and probe_reg_compile are defined: location assignment returns a result, and
compilation of the call, before or after location assignment, returns a
result. -/
theorem annotate_success_ready (A : arch_t) (call : call_node) :
    ((probe_reg_annotate A call).1 = 0 → reg_call_ready (probe_reg_annotate A call).2) ∧
    ((probe_func_annotate A call).1 = 0 → reg_call_ready (probe_func_annotate A call).2) ∧
    ((kprobe_arg_annotate A call).1 = 0 → reg_call_ready (kprobe_arg_annotate A call).2) ∧
    ((kretprobe_retval_annotate A call).1 = 0 →
      reg_call_ready (kretprobe_retval_annotate A call).2) ∧
    (∀ c : call_node, reg_call_ready c →
      ∀ (alloc : probe_t → Nat → probe_t × Int) (probe : probe_t) (E : emitter_t)
        (prog : prog_t),
        (probe_reg_compile A E c prog).isSome = true ∧
        ∃ r : Int × call_node × probe_t,
          probe_reg_loc_assign alloc probe c = some r ∧
          (probe_reg_compile A E r.2.1 prog).isSome = true) := by
  have h22 : ¬ EINVAL = 0 := by decide
  have h38 : ¬ ENOSYS = 0 := by decide
  refine ⟨?_, ?_, ?_, ?_, ?_⟩
  · unfold probe_reg_annotate reg_call_ready
    rcases call.vargs with _ | ⟨a, _ | ⟨b, rest⟩⟩
    · simp [h22]
    · dsimp only
      split_ifs with h1 h2 h3
      · intro h; exact absurd h (ne_of_lt h2)
      · simp [set_int_result, sizeof_int64]
      · simp [h38]
      · simp [set_int_result, sizeof_int64]
    · simp [h22]
  · unfold probe_func_annotate reg_call_ready
    rcases call.vargs with _ | ⟨a, rest⟩
    · dsimp only
      split_ifs with h1
      · intro h; exact absurd h (ne_of_lt h1)
      · simp [set_int_result, sizeof_int64]
    · simp [h22]
  · unfold kprobe_arg_annotate reg_call_ready
    rcases call.vargs with _ | ⟨a, _ | ⟨b, rest⟩⟩
    · simp [h22]
    · dsimp only
      split_ifs with h1 h2
      · simp [h38]
      · intro h; exact absurd h (ne_of_lt h2)
      · simp [set_int_result, sizeof_int64]
    · simp [h22]
  · unfold kretprobe_retval_annotate reg_call_ready
    rcases call.vargs with _ | ⟨a, rest⟩
    · dsimp only
      split_ifs with h1
      · intro h; exact absurd h (ne_of_lt h1)
      · simp [set_int_result, sizeof_int64]
    · simp [h22]
  · rintro c ⟨a, hv, -, -⟩ alloc probe E prog
    constructor
    · simp only [probe_reg_compile, hv]
      split_ifs <;> rfl
    · unfold probe_reg_loc_assign
      by_cases hloc : c.node.dyn.loc = loc_t.LOC_REG
      · simp only [hloc, if_true, hv]
        refine ⟨_, rfl, ?_⟩
        simp only [probe_reg_compile]
        split_ifs <;> rfl
      · simp only [hloc, if_false, hv]
        refine ⟨_, rfl, ?_⟩
        simp only [probe_reg_compile]
        split_ifs
        rfl

/-- Witness of annotate_success_ready: reg("rax") annotates successfully on
the example 64-bit architecture and is then ready for the later phases. -/
theorem annotate_success_ready_witness :
    reg_call_ready (probe_reg_annotate arch_example64 call_reg_rax).2 ∧
    (probe_reg_compile arch_example64 emitter_example
      (probe_reg_annotate arch_example64 call_reg_rax).2 []).isSome = true ∧
    ∃ r : Int × call_node × probe_t,
      probe_reg_loc_assign bounded_stack_get (probe_t.mk 0)
        (probe_reg_annotate arch_example64 call_reg_rax).2 = some r ∧
      (probe_reg_compile arch_example64 emitter_example r.2.1 []).isSome = true :=
  have h := annotate_success_ready arch_example64 call_reg_rax
  have hready := h.1 (by decide)
  ⟨hready, h.2.2.2.2 _ hready bounded_stack_get (probe_t.mk 0) emitter_example []⟩

/-- C20: probe_reg_annotate does not range-check a numeric argument.  For
every call with exactly one integer-literal argument of any value it returns
success and leaves the argument as it was; for a string argument it succeeds
exactly when arch_reg_atoi returns a non-negative index r, the integer of the
argument then being r, and otherwise returns the negative result of
arch_reg_atoi and leaves the call as it was. -/
theorem probe_reg_annotate_no_range_check (A : arch_t) (call : call_node) (arg : node_t)
    (hargs : call.vargs = [arg]) :
    (arg.type = type_t.TYPE_INT →
      (probe_reg_annotate A call).1 = 0 ∧ (probe_reg_annotate A call).2.vargs = [arg]) ∧
    (arg.type = type_t.TYPE_STR →
      ((probe_reg_annotate A call).1 = 0 ↔ 0 ≤ A.arch_reg_atoi arg.string) ∧
      (0 ≤ A.arch_reg_atoi arg.string →
        (probe_reg_annotate A call).2.vargs
          = [{ arg with integer := A.arch_reg_atoi arg.string }]) ∧
      (A.arch_reg_atoi arg.string < 0 →
        probe_reg_annotate A call = (A.arch_reg_atoi arg.string, call))) := by
  unfold probe_reg_annotate
  rw [hargs]
  constructor
  · intro hint
    simp [hint]
  · intro hstr
    by_cases hneg : A.arch_reg_atoi arg.string < 0
    · have hne : ¬ A.arch_reg_atoi arg.string = 0 := ne_of_lt hneg
      have hnle : ¬ 0 ≤ A.arch_reg_atoi arg.string := not_le.mpr hneg
      simp [hstr, hneg, hne, hnle]
    · have hle : 0 ≤ A.arch_reg_atoi arg.string := not_lt.mp hneg
      simp [hstr, hneg, hle]

/-- Witness of probe_reg_annotate_no_range_check: reg(-5) succeeds and keeps
-5, reg("rax") resolves to 10, and reg("nosuch") returns the error of the
register-name table. -/
theorem probe_reg_annotate_no_range_check_witness :
    ((probe_reg_annotate arch_example64 call_reg_negative).1 = 0 ∧
      (probe_reg_annotate arch_example64 call_reg_negative).2.vargs = [int_arg (-5) 100]) ∧
    (probe_reg_annotate arch_example64 call_reg_rax).2.vargs
      = [{ str_arg "rax" 100 with integer := 10 }] ∧
    probe_reg_annotate arch_example64 call_reg_unknown = (-ENOSYS, call_reg_unknown) :=
  ⟨(probe_reg_annotate_no_range_check arch_example64 call_reg_negative (int_arg (-5) 100)
      rfl).1 rfl,
   ((probe_reg_annotate_no_range_check arch_example64 call_reg_rax (str_arg "rax" 100)
      rfl).2 rfl).2.1 (by decide),
   ((probe_reg_annotate_no_range_check arch_example64 call_reg_unknown
      (str_arg "nosuch" 100) rfl).2 rfl).2.2 (by decide)⟩

end Ply
